import Mathlib

/-!
# Verification of the `diff_rast` rasterization wrapper (`rasterize.py`)

A shallow embedding of `src/diff_rast/rasterize.py` and of the compositing
core it drives (`cuda_lib.rasterize_forward` / `cuda_lib.rasterize_backward`,
whose implementation is not part of this repository's sources and is
modelled from the specification where needed).

Tensors are modelled as flat row-major lists of exact rationals together
with a shape and a dtype; the wrapper's validation, padding and
normalization steps become a total function into `Except`, where
`Except.error` marks a Python exception raised before the CUDA core is
invoked and `Except.ok` carries exactly the argument values handed to
`cuda_lib.rasterize_forward`.
-/

/-- The torch dtypes relevant to the wrapper. -/
inductive DType where
  | uint8
  | int32
  | int64
  | float32
  | float64
deriving DecidableEq, Repr

/-- Holds for torch's integral dtypes among `DType`. -/
def DType.isIntegral : DType → Bool
  | .uint8 => true
  | .int32 => true
  | .int64 => true
  | .float32 => false
  | .float64 => false

/-- A torch tensor: shape, dtype, and row-major flat data (exact rationals
in place of floats). -/
structure PyTensor where
  shape : List Nat
  dtype : DType
  data : List ℚ
deriving DecidableEq, Repr

/-- The leading dimension `t.shape[0]`, `none` when the tensor is
zero-dimensional (in Python, indexing an empty `torch.Size` raises). -/
def leadingDim (t : PyTensor) : Option Nat := t.shape.head?

/-- The condition of the assert at `rasterize.py:56-58`:
`input.shape[0] == means3d.shape[0]`.  When either shape is empty the
Python code raises (`shape[0]` on an empty `torch.Size` is an
`IndexError`), so the check only passes when both leading dimensions
exist and agree. -/
def leadingOk (t ref : PyTensor) : Bool :=
  match leadingDim t, leadingDim ref with
  | some a, some b => a == b
  | _, _ => false

/-- The condition of the assert at `rasterize.py:59-61`:
`getattr(input, "dim") != 2`.  In the source, `input.dim` is a *bound
method object*, not the integer `input.dim()`; a method object never
equals the integer `2`, so this assertion passes for every tensor
regardless of its dimensionality. -/
def dimAssertHolds (_t : PyTensor) : Bool := true

/-- From `rasterize.py:63-78`: pad a `3×4` matrix to `4×4` by concatenating
the row `[0, 0, 0, 1]` below it (`torch.cat` along dim 0; in row-major
flat form, appending four entries). -/
def padRow (m : PyTensor) : PyTensor :=
  { shape := [4, 4], dtype := m.dtype, data := m.data ++ [0, 0, 0, 1] }

/-- From `rasterize.py:88-89`: `colors.float() / 255` for `uint8` input. -/
def normalizeU8 (t : PyTensor) : PyTensor :=
  { shape := t.shape, dtype := DType.float32, data := t.data.map (fun x => x / 255) }

/-- The wrapper's inputs (the arguments of `rasterize.forward`, `ctx`
excluded).  `glob_scale`, `fx`, `fy` are Python floats, modelled as ℚ. -/
structure FwdArgs where
  means3d : PyTensor
  scales : PyTensor
  glob_scale : ℚ
  rotations_quat : PyTensor
  colors : PyTensor
  opacity : PyTensor
  view_matrix : PyTensor
  proj_matrix : PyTensor
  img_height : Nat
  img_width : Nat
  fx : ℚ
  fy : ℚ
  channels : Nat
deriving DecidableEq, Repr

/-- The exceptions `rasterize.forward` can raise before reaching the CUDA
core.  `shapeMismatch` covers both the `AssertionError` of the leading-dim
assert and the `NameError` its message can raise (the f-string at line 58
references the undefined global `means`); either way an exception escapes
before `cuda_lib.rasterize_forward` runs. -/
inductive FwdError where
  | shapeMismatch (name : String)
  | dimMismatch (name : String)
  | invalidProjMatrix
  | invalidViewMatrix
deriving DecidableEq, Repr

/-- The argument values handed to `cuda_lib.rasterize_forward`
(`rasterize.py:102-116`); `.contiguous().cuda()` preserves values. -/
structure CudaFwdArgs where
  means3d : PyTensor
  scales : PyTensor
  glob_scale : ℚ
  rotations_quat : PyTensor
  colors : PyTensor
  opacity : PyTensor
  view_matrix : PyTensor
  proj_matrix : PyTensor
  img_height : Nat
  img_width : Nat
  fx : ℚ
  fy : ℚ
  channels : Nat
deriving DecidableEq, Repr

/-- One iteration of the validation loop at `rasterize.py:49-61`: the
leading-dimension assert followed by the (vacuous) dimensionality
assert. -/
def checkPerGaussian (name : String) (t ref : PyTensor) : Except FwdError Unit :=
  if leadingOk t ref then
    if dimAssertHolds t then Except.ok () else Except.error (FwdError.dimMismatch name)
  else Except.error (FwdError.shapeMismatch name)

/-- The validation loop at `rasterize.py:49-61`, iterating the dict in
insertion order: means3d, scales, rotations.quat, colors, opacity. -/
def validatePerGaussian (a : FwdArgs) : Except FwdError Unit :=
  match checkPerGaussian "means3d" a.means3d a.means3d with
  | Except.error e => Except.error e
  | Except.ok _ =>
  match checkPerGaussian "scales" a.scales a.means3d with
  | Except.error e => Except.error e
  | Except.ok _ =>
  match checkPerGaussian "rotations.quat" a.rotations_quat a.means3d with
  | Except.error e => Except.error e
  | Except.ok _ =>
  match checkPerGaussian "colors" a.colors a.means3d with
  | Except.error e => Except.error e
  | Except.ok _ =>
  checkPerGaussian "opacity" a.opacity a.means3d

/-- The conditional camera-matrix rebinding at `rasterize.py:63-78`:
a `3×4` matrix is padded with the row `[0,0,0,1]`, anything else is left
as it came in (and then faces the `(4,4)` asserts). -/
def fixupCamera (m : PyTensor) : PyTensor :=
  if m.shape = [3, 4] then padRow m else m

/-- The conditional color rebinding at `rasterize.py:88-89`. -/
def normColors (c : PyTensor) : PyTensor :=
  if c.dtype = DType.uint8 then normalizeU8 c else c

namespace rasterize

/-- The function `rasterize.forward` (`rasterize.py:32-142`) up to the CUDA call:
validation, camera-matrix padding and asserts, uint8 color
normalization.  `Except.ok` carries the values handed to
`cuda_lib.rasterize_forward`; `Except.error` is an exception raised
before the core is invoked. -/
def forward (a : FwdArgs) : Except FwdError CudaFwdArgs :=
  match validatePerGaussian a with
  | Except.error e => Except.error e
  | Except.ok _ =>
    if (fixupCamera a.proj_matrix).shape = [4, 4] then
      if (fixupCamera a.view_matrix).shape = [4, 4] then
        Except.ok
          { means3d := a.means3d
            scales := a.scales
            glob_scale := a.glob_scale
            rotations_quat := a.rotations_quat
            colors := normColors a.colors
            opacity := a.opacity
            view_matrix := fixupCamera a.view_matrix
            proj_matrix := fixupCamera a.proj_matrix
            img_height := a.img_height
            img_width := a.img_width
            fx := a.fx
            fy := a.fy
            channels := a.channels }
      else Except.error FwdError.invalidViewMatrix
    else Except.error FwdError.invalidProjMatrix

end rasterize

/-- Holds exactly when the wrapper raised before the CUDA call. -/
def isErr {α : Type} : Except FwdError α → Bool
  | Except.error _ => true
  | Except.ok _ => false

/-- The five per-Gaussian tensors, in the order the validation dict
iterates them. -/
def perGaussianTensors (a : FwdArgs) : List PyTensor :=
  [a.means3d, a.scales, a.rotations_quat, a.colors, a.opacity]

/-- A well-formed all-zero two-dimensional float tensor of shape `[n, k]`. -/
def exTensor (n k : Nat) : PyTensor :=
  { shape := [n, k], dtype := DType.float32, data := List.replicate (n * k) 0 }

/-- A well-formed `4×4` identity-free stand-in camera matrix. -/
def exMat44 : PyTensor :=
  { shape := [4, 4], dtype := DType.float32, data := List.replicate 16 0 }

/-- A baseline valid call with `N = 2` Gaussians. -/
def exArgsOK : FwdArgs :=
  { means3d := exTensor 2 3
    scales := exTensor 2 3
    glob_scale := 1
    rotations_quat := exTensor 2 4
    colors := exTensor 2 3
    opacity := exTensor 2 1
    view_matrix := exMat44
    proj_matrix := exMat44
    img_height := 4
    img_width := 4
    fx := 1
    fy := 1
    channels := 3 }

/-- The baseline call with `scales` given leading dimension 3 ≠ 2. -/
def exArgsC1 : FwdArgs := { exArgsOK with scales := exTensor 3 3 }

/-- The baseline call with a one-dimensional `opacity` of shape `[2]`
(exactly the shape the repository's own `__main__` test passes). -/
def exArgsC2 : FwdArgs :=
  { exArgsOK with
      opacity := { shape := [2], dtype := DType.float32, data := [9/10, 9/10] } }

/-- The baseline call with a `2×2` projection matrix. -/
def exArgsC7 : FwdArgs :=
  { exArgsOK with
      proj_matrix := { shape := [2, 2], dtype := DType.float32, data := [1, 0, 0, 1] } }

/-- A concrete `3×4` camera matrix. -/
def exMat34 : PyTensor :=
  { shape := [3, 4], dtype := DType.float32, data := [1, 0, 0, 0, 0, 1, 0, 0, 0, 0, 1, 2] }

/-- The baseline call with both camera matrices `3×4`. -/
def exArgsC6 : FwdArgs := { exArgsOK with proj_matrix := exMat34, view_matrix := exMat34 }

/-- The CUDA-call argument values produced by `rasterize.forward` on
`exArgsC6`. -/
def cudaC6 : CudaFwdArgs :=
  { means3d := exTensor 2 3
    scales := exTensor 2 3
    glob_scale := 1
    rotations_quat := exTensor 2 4
    colors := exTensor 2 3
    opacity := exTensor 2 1
    view_matrix := padRow exMat34
    proj_matrix := padRow exMat34
    img_height := 4
    img_width := 4
    fx := 1
    fy := 1
    channels := 3 }

/-- An `int64` color tensor whose values all lie in 0..255. -/
def colorsC4 : PyTensor :=
  { shape := [2, 3], dtype := DType.int64, data := [0, 17, 128, 200, 255, 34] }

/-- The baseline call with the integral (but not `uint8`) color tensor. -/
def exArgsC4 : FwdArgs := { exArgsOK with colors := colorsC4 }

/-- A `uint8` color tensor. -/
def colorsC4u : PyTensor :=
  { shape := [2, 3], dtype := DType.uint8, data := [0, 51, 102, 153, 204, 255] }

/-- The baseline call with `uint8` colors. -/
def exArgsC4u : FwdArgs := { exArgsOK with colors := colorsC4u }

/-- The CUDA-call argument values produced on `exArgsC4u`. -/
def cudaC4u : CudaFwdArgs :=
  { means3d := exTensor 2 3
    scales := exTensor 2 3
    glob_scale := 1
    rotations_quat := exTensor 2 4
    colors := normalizeU8 colorsC4u
    opacity := exTensor 2 1
    view_matrix := exMat44
    proj_matrix := exMat44
    img_height := 4
    img_width := 4
    fx := 1
    fy := 1
    channels := 3 }

/-- The entries of the tuple returned by `rasterize.backward`
(`rasterize.py:192-205`): `None` (no gradient) or a gradient tensor. -/
inductive Grad where
  | noGrad
  | grad (t : PyTensor)
deriving DecidableEq, Repr

/-- The squeeze `v_opacity.squeeze(-1)` (`rasterize.py:190`): drop the last dimension
when it equals 1; otherwise the tensor is unchanged. -/
def squeezeLast (t : PyTensor) : PyTensor :=
  if t.shape.getLast? = some 1 then { t with shape := t.shape.dropLast } else t

namespace rasterize

/-- The tuple `rasterize.backward` returns (`rasterize.py:190-205`), given
the tensors `v_colors` and `v_opacity` that `cuda_lib.rasterize_backward`
produced: position by position `None` for means3d, scales, glob_scale and
rotations_quat, then `v_colors`, then the squeezed `v_opacity`, then `None`
for view_matrix, proj_matrix, img_height, img_width, fx and fy.  The
source returns nothing for `channels`. -/
def backward (v_colors v_opacity : PyTensor) : List Grad :=
  [Grad.noGrad, Grad.noGrad, Grad.noGrad, Grad.noGrad,
   Grad.grad v_colors, Grad.grad (squeezeLast v_opacity),
   Grad.noGrad, Grad.noGrad, Grad.noGrad, Grad.noGrad, Grad.noGrad, Grad.noGrad]

end rasterize

/-- The parameters of `rasterize.forward` (`rasterize.py:33-47`, `ctx`
excluded), in declaration order. -/
def forwardParamNames : List String :=
  ["means3d", "scales", "glob_scale", "rotations_quat", "colors", "opacity",
   "view_matrix", "proj_matrix", "img_height", "img_width", "fx", "fy", "channels"]

/-- A concrete color-gradient tensor from the core, shape `[2, 3]`. -/
def vColors0 : PyTensor :=
  { shape := [2, 3], dtype := DType.float32, data := [1, 2, 3, 4, 5, 6] }

/-- A concrete opacity-gradient tensor from the core, shape `[2, 1]`
(the shape `render_backward` declares for `d_opacity`). -/
def vOpacity0 : PyTensor :=
  { shape := [2, 1], dtype := DType.float32, data := [5, 7] }

/-- Modelled from the spec: the per-entry data the Forward Compositor
(§4.3) sees for one Gaussian at one pixel, `cuda_lib.rasterize_forward`
being outside this repository's sources.  `weight` stands for the
Gaussian falloff `exp(-0.5·dᵀ·conic·d)` evaluated at the pixel, which
lies in `[0,1]`; `opacity` is the Gaussian's opacity. -/
structure GEntry where
  gid : Nat
  weight : ℚ
  opacity : ℚ
  color : List ℚ

/-- Modelled from the spec (§4.3): `alpha_i` is the Gaussian weight
multiplied by opacity. -/
def alphaOf (g : GEntry) : ℚ := g.opacity * g.weight

/-- Modelled from the spec (§4.3): the early-exit threshold on the
transmittance (e.g. 1/255). -/
def tThreshold : ℚ := 1 / 255

/-- Per-pixel render state: accumulated color and transmittance `T`. -/
structure PixState where
  color : List ℚ
  T : ℚ

/-- Modelled from the spec (§4.3): one compositing step,
`color += T·alpha_i·color_i; T *= (1 − alpha_i)`. -/
def blend (st : PixState) (g : GEntry) : PixState :=
  { color := List.zipWith (fun c gc => c + st.T * alphaOf g * gc) st.color g.color
    T := st.T * (1 - alphaOf g) }

/-- Modelled from the spec (§4.3): the front-to-back walk over a pixel's
depth-sorted entries with early exit once `T` falls below the threshold;
the returned list is the trace of states, beginning with the initial
one. -/
def walk (st : PixState) : List GEntry → List PixState
  | [] => [st]
  | g :: gs => if st.T < tThreshold then [st] else st :: walk (blend st g) gs

/-- The transmittance trace of one pixel's compositing walk, starting
from `T = 1` over a black background. -/
def pixelTrace (channels : Nat) (gs : List GEntry) : List ℚ :=
  (walk { color := List.replicate channels 0, T := 1 } gs).map PixState.T

/-- Two concrete compositing entries with in-range opacity and weight. -/
def gsC8 : List GEntry :=
  [{ gid := 0, weight := 1/2, opacity := 9/10, color := [1, 0, 0] },
   { gid := 1, weight := 1, opacity := 1, color := [0, 1, 0] }]

/-- Modelled from the spec (§4.4): the Backward Compositor's per-pixel
state during the reverse replay — the reconstructed transmittance `T`,
the per-channel color `S` accumulated behind the current Gaussian, and
the shared per-Gaussian gradient buffers (`cuda_lib.rasterize_backward`
is outside this repository's sources). -/
structure BackState where
  T : ℚ
  S : Nat → ℚ
  dcol : Nat → Nat → ℚ
  dop : Nat → ℚ

/-- Modelled from the spec (§4.4): one step of the reverse walk.  The
pre-blend transmittance is reconstructed as `T_before = T_after/(1−alpha)`;
`d_color_i += T_before·alpha·d_pixel` per channel; `d_opacity_i` goes
through the chain rule on `alpha = opacity·weight`, combining the
color-loss term `color_i·T_before·d_pixel` with the effect on the
Gaussians behind, `−S·d_pixel`; `S` then absorbs this Gaussian's own
contribution. -/
def backStep (channels : Nat) (dpix : List ℚ) (st : BackState) (g : GEntry) : BackState :=
  let al := alphaOf g
  let Tb := st.T / (1 - al)
  let vAlpha := (List.range channels).foldl
      (fun acc c => acc + (g.color.getD c 0 * Tb - st.S c) * dpix.getD c 0) 0
  { T := Tb
    S := fun c => st.S c + al * Tb * g.color.getD c 0
    dcol := fun i c => if i = g.gid then st.dcol i c + Tb * al * dpix.getD c 0 else st.dcol i c
    dop := fun i => if i = g.gid then st.dop i + g.weight * vAlpha else st.dop i }

/-- Modelled from the spec (§4.4): what one pixel contributes to the
backward pass — the image gradient at the pixel, the entries its forward
walk processed (front-to-back, up to `final_idx`), and its saved final
transmittance. -/
structure PixelWork where
  dpix : List ℚ
  entries : List GEntry
  finalT : ℚ

/-- Modelled from the spec (§4.4): one pixel's reverse replay, from
`final_idx` back to the tile range's start, accumulating into the shared
gradient buffers. -/
def backPixel (channels : Nat) (dcol : Nat → Nat → ℚ) (dop : Nat → ℚ) (p : PixelWork) :
    (Nat → Nat → ℚ) × (Nat → ℚ) :=
  let st := p.entries.reverse.foldl (backStep channels p.dpix)
    { T := p.finalT, S := fun _ => 0, dcol := dcol, dop := dop }
  (st.dcol, st.dop)

/-- Modelled from the spec (§4.4): the whole backward pass — every pixel's
replay accumulated into gradient buffers that start at zero (summation
order is unspecified in the spec; a left fold is one admissible order). -/
def backScene (channels : Nat) (pixels : List PixelWork) : (Nat → Nat → ℚ) × (Nat → ℚ) :=
  pixels.foldl (fun bufs p => backPixel channels bufs.1 bufs.2 p) (fun _ _ => 0, fun _ => 0)

/-- A concrete two-pixel backward workload with a zero image gradient. -/
def pixC9 : List PixelWork :=
  [{ dpix := [0, 0, 0], entries := gsC8, finalT := 1/20 },
   { dpix := [0, 0, 0], entries := [], finalT := 1 }]

/-- A Python heap of tensor objects; an index into the list is an object
reference. -/
abbrev Store := List PyTensor

/-- Dereference a tensor object (reads never mutate). -/
def readT (s : Store) (r : Nat) : PyTensor :=
  List.getD s r { shape := [], dtype := DType.float32, data := [] }

/-- References to the tensor arguments the caller passes to
`rasterize.forward`. -/
structure FwdRefs where
  means3d : Nat
  scales : Nat
  rotations_quat : Nat
  colors : Nat
  opacity : Nat
  view_matrix : Nat
  proj_matrix : Nat

/-- The wrapper's argument values as read off the heap (the non-tensor
scalars do not live on the tensor heap and are irrelevant to the frame
effect). -/
def argsOfHeap (s : Store) (r : FwdRefs) : FwdArgs :=
  { means3d := readT s r.means3d
    scales := readT s r.scales
    glob_scale := 1
    rotations_quat := readT s r.rotations_quat
    colors := readT s r.colors
    opacity := readT s r.opacity
    view_matrix := readT s r.view_matrix
    proj_matrix := readT s r.proj_matrix
    img_height := 0
    img_width := 0
    fx := 0
    fy := 0
    channels := 3 }

/-- The heap and CUDA-argument references a successful `rasterize.forward`
leaves behind: every torch operation the wrapper performs allocates new
tensor objects and rebinds local names, never writing through the
caller's references — `torch.Tensor([0,0,0,1])` plus `unsqueeze` plus
`torch.cat` for each `3×4` camera matrix (`rasterize.py:63-78`, collapsed
into the one padded tensor each pad leaves on the heap),
`colors.float() / 255` (`rasterize.py:88-89`), and a
`.contiguous().cuda()` copy per argument of the CUDA call
(`rasterize.py:102-116`).  `newTensors` lists the allocations in
execution order; the heap afterwards is the entry heap with exactly those
objects appended, and the returned references (all fresh) are the seven
tensors handed to `cuda_lib.rasterize_forward`. -/
def forwardHeapOk (s : Store) (r : FwdRefs) : Store × List Nat :=
  let proj := readT s r.proj_matrix
  let view := readT s r.view_matrix
  let colors := readT s r.colors
  let padAllocs := (if proj.shape = [3, 4] then [padRow proj] else []) ++
    (if view.shape = [3, 4] then [padRow view] else [])
  let colorAllocs := if colors.dtype = DType.uint8 then [normalizeU8 colors] else []
  let newTensors := padAllocs ++ colorAllocs ++
    [readT s r.means3d, readT s r.scales, readT s r.rotations_quat,
     normColors colors, readT s r.opacity, fixupCamera view, fixupCamera proj]
  let base := List.length s + padAllocs.length + colorAllocs.length
  (List.append s newTensors, [base, base + 1, base + 2, base + 3, base + 4, base + 5, base + 6])

/-- The function `rasterize.forward` at the heap level: validation and the camera
asserts as in `rasterize.forward`, then the allocations of
`forwardHeapOk`. -/
def forwardHeap (s : Store) (r : FwdRefs) : Except FwdError (Store × List Nat) :=
  match validatePerGaussian (argsOfHeap s r) with
  | Except.error e => Except.error e
  | Except.ok _ =>
    if (fixupCamera (readT s r.proj_matrix)).shape = [4, 4] then
      if (fixupCamera (readT s r.view_matrix)).shape = [4, 4] then
        Except.ok (forwardHeapOk s r)
      else Except.error FwdError.invalidViewMatrix
    else Except.error FwdError.invalidProjMatrix

/-- A concrete caller heap: the seven tensor arguments of the baseline
call, in order. -/
def storeC10 : Store :=
  [exTensor 2 3, exTensor 2 3, exTensor 2 4, exTensor 2 3, exTensor 2 1, exMat44, exMat44]

/-- References of the baseline call's tensors inside `storeC10`. -/
def refsC10 : FwdRefs :=
  { means3d := 0, scales := 1, rotations_quat := 2, colors := 3, opacity := 4,
    view_matrix := 5, proj_matrix := 6 }

/-- A successful pass through the validation loop forces every
per-Gaussian leading-dimension check to have succeeded. -/
theorem validatePerGaussian_ok (a : FwdArgs) (h : validatePerGaussian a = Except.ok ()) :
    leadingOk a.means3d a.means3d = true ∧ leadingOk a.scales a.means3d = true ∧
    leadingOk a.rotations_quat a.means3d = true ∧ leadingOk a.colors a.means3d = true ∧
    leadingOk a.opacity a.means3d = true := by
  by_cases c1 : leadingOk a.means3d a.means3d <;>
  by_cases c2 : leadingOk a.scales a.means3d <;>
  by_cases c3 : leadingOk a.rotations_quat a.means3d <;>
  by_cases c4 : leadingOk a.colors a.means3d <;>
  by_cases c5 : leadingOk a.opacity a.means3d <;>
  simp [validatePerGaussian, checkPerGaussian, dimAssertHolds, c1, c2, c3, c4, c5] at h ⊢

/-- A passed leading-dimension check means the two leading dimensions
exist and agree. -/
theorem leadingOk_eq {t ref : PyTensor} (h : leadingOk t ref = true) :
    leadingDim t = leadingDim ref := by
  unfold leadingOk at h
  cases ht : leadingDim t <;> cases hr : leadingDim ref <;> rw [ht, hr] at h <;> simp_all

/-- C1: a per-Gaussian tensor whose leading dimension differs from
`means3d`'s leading dimension makes `rasterize.forward` raise before
`cuda_lib.rasterize_forward` is invoked: the result is an error, so no
`CudaFwdArgs` is ever produced and no core computation happens. -/
theorem C1_shape_mismatch_fail_fast (a : FwdArgs) (t : PyTensor)
    (hmem : t ∈ perGaussianTensors a)
    (hne : leadingDim t ≠ leadingDim a.means3d) :
    isErr (rasterize.forward a) = true := by
  cases hv : validatePerGaussian a with
  | error e =>
    unfold rasterize.forward
    rw [hv]
    rfl
  | ok u =>
    exfalso
    cases u
    obtain ⟨h1, h2, h3, h4, h5⟩ := validatePerGaussian_ok a hv
    simp only [perGaussianTensors, List.mem_cons, List.not_mem_nil, or_false] at hmem
    rcases hmem with rfl | rfl | rfl | rfl | rfl
    · exact hne (leadingOk_eq h1)
    · exact hne (leadingOk_eq h2)
    · exact hne (leadingOk_eq h3)
    · exact hne (leadingOk_eq h4)
    · exact hne (leadingOk_eq h5)

/-- C1 witness: on the concrete mismatching call, the hypothesis holds and
the wrapper errors out before the core. -/
theorem C1_witness :
    (exTensor 3 3 ∈ perGaussianTensors exArgsC1 ∧
      leadingDim (exTensor 3 3) ≠ leadingDim exArgsC1.means3d) ∧
    isErr (rasterize.forward exArgsC1) = true :=
  ⟨⟨by decide, by decide⟩,
    C1_shape_mismatch_fail_fast exArgsC1 (exTensor 3 3) (by decide) (by decide)⟩

/-- C2 (code bug evidence): `opacity` here is one-dimensional, yet
`rasterize.forward` raises no exception and reaches the CUDA call — the
assert at `rasterize.py:59-61` compares the bound method `input.dim` to
the integer `2`, which never holds... so the assert never fires, even
though its own message says the number of dimensions "should be 2". -/
theorem C2_dim_check_never_fires :
    exArgsC2.opacity.shape.length ≠ 2 ∧ isErr (rasterize.forward exArgsC2) = false := by
  constructor
  · decide
  · decide

/-- C7: a camera matrix (view or projection) that is neither `3×4` nor
`4×4` makes `rasterize.forward` raise before the CUDA core is invoked. -/
theorem C7_invalid_camera_matrix_rejected (a : FwdArgs)
    (h : (a.proj_matrix.shape ≠ [3, 4] ∧ a.proj_matrix.shape ≠ [4, 4]) ∨
         (a.view_matrix.shape ≠ [3, 4] ∧ a.view_matrix.shape ≠ [4, 4])) :
    isErr (rasterize.forward a) = true := by
  cases hv : validatePerGaussian a with
  | error e =>
    unfold rasterize.forward
    rw [hv]
    rfl
  | ok u =>
    unfold rasterize.forward
    rw [hv]
    rcases h with ⟨h1, h2⟩ | ⟨h1, h2⟩
    · simp [fixupCamera, h1, h2, isErr]
    · by_cases hp3 : a.proj_matrix.shape = [3, 4]
      · simp [fixupCamera, hp3, h1, h2, padRow, isErr]
      · by_cases hp4 : a.proj_matrix.shape = [4, 4]
        · simp [fixupCamera, hp3, hp4, h1, h2, isErr]
        · simp [fixupCamera, hp3, hp4, h1, h2, isErr]

/-- C7 witness: the concrete `2×2` projection matrix is rejected. -/
theorem C7_witness :
    (exArgsC7.proj_matrix.shape ≠ [3, 4] ∧ exArgsC7.proj_matrix.shape ≠ [4, 4]) ∧
    isErr (rasterize.forward exArgsC7) = true :=
  ⟨⟨by decide, by decide⟩,
    C7_invalid_camera_matrix_rejected exArgsC7 (Or.inl ⟨by decide, by decide⟩)⟩


/-- Characterization of a successful `rasterize.forward`: the values handed
to the CUDA core are the inputs with the camera matrices conditionally
padded and the colors conditionally normalized; everything else passes
through unchanged. -/
theorem forward_ok_spec (a : FwdArgs) (out : CudaFwdArgs)
    (h : rasterize.forward a = Except.ok out) :
    out.colors = normColors a.colors ∧
    out.proj_matrix = fixupCamera a.proj_matrix ∧
    out.view_matrix = fixupCamera a.view_matrix ∧
    out.proj_matrix.shape = [4, 4] ∧ out.view_matrix.shape = [4, 4] ∧
    out.means3d = a.means3d ∧ out.scales = a.scales ∧
    out.rotations_quat = a.rotations_quat ∧ out.opacity = a.opacity := by
  cases hv : validatePerGaussian a with
  | error e =>
    unfold rasterize.forward at h
    rw [hv] at h
    exact absurd h (by simp)
  | ok u =>
    unfold rasterize.forward at h
    rw [hv] at h
    split at h
    case h_1 => simp_all
    case h_2 =>
      split at h
      · split at h
        · rename_i hpShape hvShape
          injection h with h2
          subst h2
          exact ⟨rfl, rfl, rfl, hpShape, hvShape, rfl, rfl, rfl, rfl⟩
        · exact absurd h (by simp)
      · exact absurd h (by simp)

/-- C6: on a successful call, a `3×4` view/projection matrix is padded to
`4×4` by appending the row `[0,0,0,1]` (exactly what `padRow` does)
before being handed to the core, and a `4×4` matrix is handed over
unchanged. -/
theorem C6_camera_matrix_padding (a : FwdArgs) (out : CudaFwdArgs)
    (h : rasterize.forward a = Except.ok out) :
    (a.proj_matrix.shape = [3, 4] →
      out.proj_matrix = padRow a.proj_matrix ∧ out.proj_matrix.shape = [4, 4]) ∧
    (a.proj_matrix.shape = [4, 4] → out.proj_matrix = a.proj_matrix) ∧
    (a.view_matrix.shape = [3, 4] →
      out.view_matrix = padRow a.view_matrix ∧ out.view_matrix.shape = [4, 4]) ∧
    (a.view_matrix.shape = [4, 4] → out.view_matrix = a.view_matrix) := by
  obtain ⟨-, hp, hv, hps, hvs, -, -, -, -⟩ := forward_ok_spec a out h
  refine ⟨fun h34 => ⟨?_, hps⟩, fun h44 => ?_, fun h34 => ⟨?_, hvs⟩, fun h44 => ?_⟩
  · rw [hp]; simp [fixupCamera, h34]
  · have hne : a.proj_matrix.shape ≠ [3, 4] := by rw [h44]; decide
    rw [hp]; simp [fixupCamera, hne]
  · rw [hv]; simp [fixupCamera, h34]
  · have hne : a.view_matrix.shape ≠ [3, 4] := by rw [h44]; decide
    rw [hv]; simp [fixupCamera, hne]

/-- C6 witness: the concrete `3×4` matrices really are padded. -/
theorem C6_witness :
    exArgsC6.proj_matrix.shape = [3, 4] ∧ exArgsC6.view_matrix.shape = [3, 4] ∧
    cudaC6.proj_matrix = padRow exArgsC6.proj_matrix ∧
    cudaC6.view_matrix = padRow exArgsC6.view_matrix :=
  ⟨by decide, by decide,
    ((C6_camera_matrix_padding exArgsC6 cudaC6 (by rfl)).1 (by decide)).1,
    ((C6_camera_matrix_padding exArgsC6 cudaC6 (by rfl)).2.2.1 (by decide)).1⟩

/-- C4 counterexample: `colors` has an integral dtype (`int64`) with all
values in 0..255, yet the tensor handed to `cuda_lib.rasterize_forward`
is the input itself, not the input converted to float and divided by 255:
the code at `rasterize.py:88` tests `colors.dtype == torch.uint8` only. -/
theorem C4_counterexample :
    colorsC4.dtype.isIntegral = true ∧
    colorsC4.data.all (fun x => decide (0 ≤ x) && decide (x ≤ 255)) = true ∧
    (rasterize.forward exArgsC4).toOption.map CudaFwdArgs.colors = some colorsC4 ∧
    colorsC4 ≠ normalizeU8 colorsC4 :=
  ⟨by decide, by decide, by rfl, by decide⟩

/-- C4 amended: only `uint8` colors are converted to float and divided by
255 before the CUDA call; colors of every other dtype (including other
integral dtypes) are handed over unchanged. -/
theorem C4_amended_only_uint8_normalized (a : FwdArgs) (out : CudaFwdArgs)
    (h : rasterize.forward a = Except.ok out) :
    (a.colors.dtype = DType.uint8 →
      out.colors = { shape := a.colors.shape, dtype := DType.float32,
                     data := a.colors.data.map (fun x => x / 255) }) ∧
    (a.colors.dtype ≠ DType.uint8 → out.colors = a.colors) := by
  obtain ⟨hc, -, -, -, -, -, -, -, -⟩ := forward_ok_spec a out h
  constructor
  · intro hu
    rw [hc]
    simp [normColors, hu, normalizeU8]
  · intro hu
    rw [hc]
    simp [normColors, hu]

/-- C4 witness: on the concrete `uint8` call the colors handed to the core
are the input colors divided by 255, as floats. -/
theorem C4_witness :
    exArgsC4u.colors.dtype = DType.uint8 ∧
    cudaC4u.colors = { shape := exArgsC4u.colors.shape, dtype := DType.float32,
                       data := exArgsC4u.colors.data.map (fun x => x / 255) } :=
  ⟨by decide,
    (C4_amended_only_uint8_normalized exArgsC4u cudaC4u (by rfl)).1 (by decide)⟩

/-- C3 counterexample: the gradient tuple returned by `rasterize.backward`
has 12 entries while `rasterize.forward` has 13 parameters — there is no
entry at all (not even `None`) for `channels`, so "exactly one entry per
forward parameter" fails. -/
theorem C3_counterexample :
    (rasterize.backward vColors0 vOpacity0).length = 12 ∧
    forwardParamNames.length = 13 ∧
    (rasterize.backward vColors0 vOpacity0).length ≠ forwardParamNames.length :=
  ⟨by decide, by decide, by decide⟩

/-- C3 amended: the returned tuple has 12 entries — one per forward
parameter except `channels`, which gets none: the computed `d_colors` sits
in the colors position (index 4), the computed (squeezed) `d_opacity` in
the opacity position (index 5), and `None` in every other of the first 12
parameter positions. -/
theorem C3_amended_grad_tuple (v_colors v_opacity : PyTensor) :
    (rasterize.backward v_colors v_opacity).length + 1 = forwardParamNames.length ∧
    forwardParamNames[4]? = some "colors" ∧
    (rasterize.backward v_colors v_opacity)[4]? = some (Grad.grad v_colors) ∧
    forwardParamNames[5]? = some "opacity" ∧
    (rasterize.backward v_colors v_opacity)[5]? = some (Grad.grad (squeezeLast v_opacity)) ∧
    ∀ i : Nat, i < 12 → i ≠ 4 → i ≠ 5 →
      (rasterize.backward v_colors v_opacity)[i]? = some Grad.noGrad := by
  refine ⟨rfl, rfl, rfl, rfl, rfl, ?_⟩
  intro i h12 h4 h5
  interval_cases i <;> simp_all <;> rfl

/-- C3 witness: the amended tuple shape checked on concrete gradients. -/
theorem C3_witness :
    (rasterize.backward vColors0 vOpacity0)[0]? = some Grad.noGrad :=
  (C3_amended_grad_tuple vColors0 vOpacity0).2.2.2.2.2 0 (by decide) (by decide) (by decide)

/-- C5 counterexample: the core's `d_opacity` has the declared shape
`[N,1] = [2,1]`, but the entry `rasterize.backward` places in the opacity
position is the squeezed tensor, whose shape is `[2]`, not `[2,1]`. -/
theorem C5_counterexample :
    vOpacity0.shape = [2, 1] ∧
    (rasterize.backward vColors0 vOpacity0)[5]? = some (Grad.grad (squeezeLast vOpacity0)) ∧
    (squeezeLast vOpacity0).shape = [2] ∧
    ([2] : List Nat) ≠ [2, 1] :=
  ⟨by decide, by rfl, by decide, by decide⟩

/-- C5 amended: for a core opacity gradient of the declared shape `[N,1]`,
the gradient `rasterize.backward` hands back in the opacity position is
that tensor squeezed to shape `[N]`. -/
theorem C5_amended_opacity_grad_squeezed (v_colors v_opacity : PyTensor) (n : Nat)
    (h : v_opacity.shape = [n, 1]) :
    (rasterize.backward v_colors v_opacity)[5]? = some (Grad.grad (squeezeLast v_opacity)) ∧
    (squeezeLast v_opacity).shape = [n] := by
  refine ⟨rfl, ?_⟩
  unfold squeezeLast
  rw [h]
  rfl

/-- C5 witness: the concrete `[2,1]` opacity gradient comes back as `[2]`. -/
theorem C5_witness :
    vOpacity0.shape = [2, 1] ∧ (squeezeLast vOpacity0).shape = [2] :=
  ⟨by decide, (C5_amended_opacity_grad_squeezed vColors0 vOpacity0 2 (by decide)).2⟩

/-- The blend factor alpha lies in `[0,1]` whenever opacity and weight do. -/
theorem alphaOf_unit {g : GEntry}
    (h : 0 ≤ g.opacity ∧ g.opacity ≤ 1 ∧ 0 ≤ g.weight ∧ g.weight ≤ 1) :
    0 ≤ alphaOf g ∧ alphaOf g ≤ 1 := by
  obtain ⟨h1, h2, h3, h4⟩ := h
  constructor
  · exact mul_nonneg h1 h3
  · calc g.opacity * g.weight ≤ 1 * 1 := by
          exact mul_le_mul h2 h4 h3 (by norm_num)
       _ = 1 := by norm_num

/-- The walk's transmittance trace starts at the initial `T`. -/
theorem walk_head (st : PixState) (gs : List GEntry) :
    ((walk st gs).map PixState.T).head? = some st.T := by
  cases gs with
  | nil => rfl
  | cons g gs =>
    unfold walk
    by_cases hlt : st.T < tThreshold
    · simp [hlt]
    · simp [hlt]

/-- Each step multiplies `T` by a factor in `[0,1]`, so the trace is
non-increasing. -/
theorem walk_chain (st : PixState) (gs : List GEntry)
    (h : ∀ g ∈ gs, 0 ≤ alphaOf g ∧ alphaOf g ≤ 1) (hT : 0 ≤ st.T) :
    List.Chain' (fun x y => y ≤ x) ((walk st gs).map PixState.T) := by
  induction gs generalizing st with
  | nil => simp [walk]
  | cons g gs ih =>
    unfold walk
    by_cases hlt : st.T < tThreshold
    · simp [hlt]
    · rw [if_neg hlt, List.map_cons, List.chain'_cons']
      have hg := h g (List.mem_cons_self g gs)
      have hstep : (blend st g).T ≤ st.T := by
        have : st.T * (1 - alphaOf g) ≤ st.T * 1 :=
          mul_le_mul_of_nonneg_left (by linarith [hg.1]) hT
        simpa [blend] using this
      have hT' : 0 ≤ (blend st g).T := by
        have : (0:ℚ) ≤ st.T * (1 - alphaOf g) :=
          mul_nonneg hT (by linarith [hg.2])
        simpa [blend] using this
      refine ⟨?_, ih (blend st g) (fun g' hg' => h g' (List.mem_cons_of_mem g hg')) hT'⟩
      intro y hy
      rw [walk_head] at hy
      cases hy
      exact hstep

/-- Every transmittance in the trace lies in `[0,1]` when the initial one
does. -/
theorem walk_bounds (st : PixState) (gs : List GEntry)
    (h : ∀ g ∈ gs, 0 ≤ alphaOf g ∧ alphaOf g ≤ 1) (hT0 : 0 ≤ st.T) (hT1 : st.T ≤ 1) :
    ∀ t ∈ (walk st gs).map PixState.T, 0 ≤ t ∧ t ≤ 1 := by
  induction gs generalizing st with
  | nil =>
    intro t ht
    simp [walk] at ht
    simpa [ht] using And.intro hT0 hT1
  | cons g gs ih =>
    intro t ht
    unfold walk at ht
    by_cases hlt : st.T < tThreshold
    · rw [if_pos hlt] at ht
      simp at ht
      simpa [ht] using And.intro hT0 hT1
    · rw [if_neg hlt, List.map_cons] at ht
      have hg := h g (List.mem_cons_self g gs)
      rcases List.mem_cons.mp ht with rfl | ht'
      · exact ⟨hT0, hT1⟩
      · have hT0' : 0 ≤ (blend st g).T := by
          have : (0:ℚ) ≤ st.T * (1 - alphaOf g) := mul_nonneg hT0 (by linarith [hg.2])
          simpa [blend] using this
        have hT1' : (blend st g).T ≤ 1 := by
          have hle : st.T * (1 - alphaOf g) ≤ st.T * 1 :=
            mul_le_mul_of_nonneg_left (by linarith [hg.1]) hT0
          have : st.T * (1 - alphaOf g) ≤ 1 := le_trans hle (by simpa using hT1)
          simpa [blend] using this
        exact ih (blend st g) (fun g' hg' => h g' (List.mem_cons_of_mem g hg')) hT0' hT1' t ht'

/-- C8: modelled from the spec — for every pixel walk whose entries have
opacity and Gaussian weight in `[0,1]`, the transmittance starts at 1, is
non-increasing step by step (also across the early exit), and always lies
in `[0,1]`. -/
theorem C8_transmittance_invariant (channels : Nat) (gs : List GEntry)
    (h : ∀ g ∈ gs, 0 ≤ g.opacity ∧ g.opacity ≤ 1 ∧ 0 ≤ g.weight ∧ g.weight ≤ 1) :
    (pixelTrace channels gs).head? = some 1 ∧
    List.Chain' (fun x y => y ≤ x) (pixelTrace channels gs) ∧
    ∀ t ∈ pixelTrace channels gs, 0 ≤ t ∧ t ≤ 1 := by
  have h' : ∀ g ∈ gs, 0 ≤ alphaOf g ∧ alphaOf g ≤ 1 :=
    fun g hg => alphaOf_unit (h g hg)
  refine ⟨?_, ?_, ?_⟩
  · exact walk_head _ gs
  · exact walk_chain _ gs h' (by norm_num)
  · exact walk_bounds _ gs h' (by norm_num) (by norm_num)

/-- C8 witness: the invariant evaluated on the concrete walk. -/
theorem C8_witness :
    (pixelTrace 3 gsC8).head? = some 1 ∧
    List.Chain' (fun x y => y ≤ x) (pixelTrace 3 gsC8) :=
  ⟨(C8_transmittance_invariant 3 gsC8 (by intro g hg; fin_cases hg <;> norm_num [gsC8])).1,
   (C8_transmittance_invariant 3 gsC8 (by intro g hg; fin_cases hg <;> norm_num [gsC8])).2.1⟩

/-- Indexing into an all-zero list yields zero. -/
theorem allZero_getD {l : List ℚ} (h : ∀ x ∈ l, x = 0) (c : Nat) : l[c]?.getD 0 = 0 := by
  induction l generalizing c with
  | nil => rfl
  | cons a as ih =>
    cases c with
    | zero => simpa using h a (List.mem_cons_self a as)
    | succ c => simpa using ih (fun x hx => h x (List.mem_cons_of_mem a hx)) c

/-- A left fold whose step keeps the accumulator stays put. -/
theorem foldl_add_self (l : List Nat) (a : ℚ) : l.foldl (fun acc _ => acc) a = a := by
  induction l with
  | nil => rfl
  | cons x xs ih => exact ih

/-- With an all-zero pixel gradient, one backward step leaves both
gradient buffers untouched. -/
theorem backStep_preserves (channels : Nat) (dpix : List ℚ) (hz : ∀ x ∈ dpix, x = 0)
    (st : BackState) (g : GEntry) :
    (backStep channels dpix st g).dcol = st.dcol ∧ (backStep channels dpix st g).dop = st.dop := by
  have hgetD : ∀ c, dpix[c]?.getD (0 : ℚ) = 0 := fun c => allZero_getD hz c
  constructor
  · funext i c
    simp [backStep, hgetD]
  · funext i
    simp [backStep, hgetD, foldl_add_self]

/-- With an all-zero pixel gradient, a whole reverse replay leaves both
gradient buffers untouched. -/
theorem backWalk_preserves (channels : Nat) (dpix : List ℚ) (hz : ∀ x ∈ dpix, x = 0)
    (es : List GEntry) (st : BackState) :
    (es.foldl (backStep channels dpix) st).dcol = st.dcol ∧
    (es.foldl (backStep channels dpix) st).dop = st.dop := by
  induction es generalizing st with
  | nil => exact ⟨rfl, rfl⟩
  | cons g gs ih =>
    rw [List.foldl_cons]
    obtain ⟨h1, h2⟩ := ih (backStep channels dpix st g)
    obtain ⟨p1, p2⟩ := backStep_preserves channels dpix hz st g
    exact ⟨h1.trans p1, h2.trans p2⟩

/-- With all-zero pixel gradients, the scene-level fold fixes the
buffers. -/
theorem backScene_aux (channels : Nat) (pixels : List PixelWork)
    (h : ∀ p ∈ pixels, ∀ x ∈ p.dpix, x = 0) (bufs : (Nat → Nat → ℚ) × (Nat → ℚ)) :
    pixels.foldl (fun b p => backPixel channels b.1 b.2 p) bufs = bufs := by
  induction pixels generalizing bufs with
  | nil => rfl
  | cons p ps ih =>
    rw [List.foldl_cons]
    have hw := backWalk_preserves channels p.dpix (h p (List.mem_cons_self p ps))
      p.entries.reverse
      { T := p.finalT, S := fun _ => 0, dcol := bufs.1, dop := bufs.2 }
    have hfix : backPixel channels bufs.1 bufs.2 p = bufs := by
      have hsplit : backPixel channels bufs.1 bufs.2 p =
          ((p.entries.reverse.foldl (backStep channels p.dpix)
            { T := p.finalT, S := fun _ => 0, dcol := bufs.1, dop := bufs.2 }).dcol,
           (p.entries.reverse.foldl (backStep channels p.dpix)
            { T := p.finalT, S := fun _ => 0, dcol := bufs.1, dop := bufs.2 }).dop) := rfl
      rw [hsplit, hw.1, hw.2]
    rw [hfix]
    exact ih (fun q hq => h q (List.mem_cons_of_mem p hq)) bufs

/-- C9: modelled from the spec — backward-passing an image gradient that
is zero at every pixel yields a zero color gradient and a zero opacity
gradient for every Gaussian, whatever state forward saved. -/
theorem C9_zero_gradient_roundtrip (channels : Nat) (pixels : List PixelWork)
    (h : ∀ p ∈ pixels, ∀ x ∈ p.dpix, x = 0) :
    (∀ i c, (backScene channels pixels).1 i c = 0) ∧
    (∀ i, (backScene channels pixels).2 i = 0) := by
  unfold backScene
  rw [backScene_aux channels pixels h]
  exact ⟨fun i c => rfl, fun i => rfl⟩

/-- C9 witness: the zero-gradient round trip on the concrete workload. -/
theorem C9_witness :
    (backScene 3 pixC9).1 0 0 = 0 ∧ (backScene 3 pixC9).2 1 = 0 :=
  ⟨(C9_zero_gradient_roundtrip 3 pixC9
      (by intro p hp; fin_cases hp <;> simp [pixC9])).1 0 0,
   (C9_zero_gradient_roundtrip 3 pixC9
      (by intro p hp; fin_cases hp <;> simp [pixC9])).2 1⟩

/-- Reading inside the left part of an appended heap sees the old heap. -/
theorem getElem?_append_left_of_lt {α : Type} (l1 l2 : List α) (i : Nat)
    (hi : i < l1.length) : (l1 ++ l2)[i]? = l1[i]? := by
  rw [List.getElem?_append, if_pos hi]

/-- The successful heap is the entry heap with the allocations appended. -/
theorem forwardHeapOk_fst (s : Store) (r : FwdRefs) :
    ∃ ts, (forwardHeapOk s r).1 = List.append s ts :=
  ⟨_, rfl⟩

/-- C10: `rasterize.forward` never mutates a tensor that existed before
the call — on the heap model every operation only allocates, so after a
successful call every pre-existing reference dereferences to exactly the
tensor it held on entry. -/
theorem C10_no_mutation (s : Store) (r : FwdRefs) (s' : Store) (out : List Nat)
    (h : forwardHeap s r = Except.ok (s', out)) (i : Nat) (hi : i < List.length s) :
    s'[i]? = s[i]? := by
  unfold forwardHeap at h
  cases hval : validatePerGaussian (argsOfHeap s r) with
  | error e =>
    rw [hval] at h
    exact absurd h (by simp)
  | ok u =>
    rw [hval] at h
    split at h
    case h_1 => simp_all
    case h_2 =>
      split at h
      · split at h
        · rw [Except.ok.injEq] at h
          obtain ⟨ts, hts⟩ := forwardHeapOk_fst s r
          have h1 : s' = List.append s ts := by
            rw [← hts, h]
          rw [h1]
          exact getElem?_append_left_of_lt s ts i hi
        · exact absurd h (by simp)
      · exact absurd h (by simp)

/-- C10 witness: after the concrete successful call, reference 0 still
holds what it held on entry. -/
theorem C10_witness :
    (0 : Nat) < List.length storeC10 ∧
    (forwardHeapOk storeC10 refsC10).1[0]? = storeC10[0]? :=
  ⟨by decide,
    C10_no_mutation storeC10 refsC10 (forwardHeapOk storeC10 refsC10).1
      (forwardHeapOk storeC10 refsC10).2 (by rfl) 0 (by decide)⟩

